import Mathlib

/-!
Verification of the Wind Turbine Digital Twin core against its specification.

The Python source is shallowly embedded over exact rationals (ℚ): Python
float arithmetic becomes exact ℚ arithmetic, decimal literals become the
corresponding rationals, and `math.pi` becomes its IEEE double value as a
rational literal.  The process-global randomness consumed by `step`
(four `random.uniform` calls per invocation) is made explicit as a `Draws`
record of the values those calls return, with an admissibility predicate
recording the stated uniform ranges.
-/

namespace WindTurbine

/-! ## config.py — the Parameter Set constants -/

def AIR_DENSITY : ℚ := 1.225

def ROTOR_RADIUS : ℚ := 40.0

def ROTOR_AREA : ℚ := 3.1416 * ROTOR_RADIUS ^ 2

def RATED_POWER : ℚ := 2000000

def EFFICIENCY : ℚ := 0.92

def CUT_IN_WIND : ℚ := 3.0

def RATED_WIND : ℚ := 12.0

def CUT_OUT_WIND : ℚ := 25.0

def MAX_RPM : ℚ := 18.0

def MIN_RPM : ℚ := 3.0

def MIN_PITCH : ℚ := 0.0

def MAX_PITCH : ℚ := 25.0

def CP_MAX : ℚ := 0.59

def CP_NOMINAL : ℚ := 0.45

def GEN_TEMP_WARN : ℚ := 85.0

def GEN_TEMP_CRIT : ℚ := 95.0

def GB_TEMP_WARN : ℚ := 90.0

def GB_TEMP_CRIT : ℚ := 100.0

def VIB_WARN : ℚ := 6.0

def VIB_CRIT : ℚ := 10.0

/-- The value of Python's `math.pi` (IEEE double), as a rational literal. -/
def mathPi : ℚ := 3.141592653589793

/-! ## scada_simulator.py — SCADA snapshot and the state simulator -/

/-- One SCADA snapshot: the dict returned by `initialize_state` / `step`. -/
structure Snapshot where
  wind_speed : ℚ
  rpm : ℚ
  pitch : ℚ
  power : ℚ
  gen_temp : ℚ
  gb_temp : ℚ
  vibration : ℚ
deriving Repr, DecidableEq

/-- `initialize_state()` from scada_simulator.py. -/
def initial_state : Snapshot :=
  { wind_speed := 8.0
  , rpm := 8.0
  , pitch := 2.0
  , power := 0.0
  , gen_temp := 40.0
  , gb_temp := 45.0
  , vibration := 2.5 }

/-- The four values returned by the `random.uniform` calls inside one
invocation of `step`, in call order: wind noise, wind drift, the single
pitch draw (whichever branch is taken), and vibration noise. -/
structure Draws where
  wind_noise : ℚ
  wind_drift : ℚ
  pitch_draw : ℚ
  vib_noise : ℚ
deriving Repr, DecidableEq

/-- Sub-step 1 of `step`: the new wind speed. -/
def next_wind (state : Snapshot) (d : Draws) : ℚ :=
  max 0 (state.wind_speed + d.wind_noise + d.wind_drift)

/-- The random draws lie within the uniform ranges stated in `step`:
`uniform(-0.2, 0.2)` for wind noise, `uniform(-0.02, 0.02)` for wind drift
and vibration noise, and for the pitch draw `uniform(0.0, 0.3)` on the
at-or-below-rated branch, `uniform(0.1, 0.3)` on the above-rated branch. -/
def Draws.Admissible (d : Draws) (state : Snapshot) : Prop :=
  -0.2 ≤ d.wind_noise ∧ d.wind_noise ≤ 0.2 ∧
  -0.02 ≤ d.wind_drift ∧ d.wind_drift ≤ 0.02 ∧
  (if next_wind state d ≤ RATED_WIND
     then 0 ≤ d.pitch_draw ∧ d.pitch_draw ≤ 0.3
     else 0.1 ≤ d.pitch_draw ∧ d.pitch_draw ≤ 0.3) ∧
  -0.02 ≤ d.vib_noise ∧ d.vib_noise ≤ 0.02

instance (d : Draws) (s : Snapshot) : Decidable (d.Admissible s) := by
  unfold Draws.Admissible; infer_instance

/-- Sub-step 2 of `step`: rotor speed from the new wind speed
(branch on rated wind, then the MIN_RPM floor). -/
def next_rpm (wind : ℚ) : ℚ :=
  max MIN_RPM (if wind < RATED_WIND then min MAX_RPM (1.5 * wind) else MAX_RPM)

/-- Sub-step 3 of `step`: pitch angle from the new wind speed, the previous
pitch and the pitch draw. -/
def next_pitch (wind prev_pitch draw : ℚ) : ℚ :=
  if wind ≤ RATED_WIND then MIN_PITCH + draw
  else min MAX_PITCH (prev_pitch + draw)

/-- Sub-step 4 of `step`: power output from the new wind speed. -/
def next_power (wind : ℚ) : ℚ :=
  if wind < CUT_IN_WIND then 0
  else min RATED_POWER (EFFICIENCY * 0.4 * (0.5 * AIR_DENSITY * ROTOR_AREA * wind ^ 3))

/-- Sub-step 5 of `step`: generator temperature relaxation, driven by the
newly computed power. -/
def next_gen_temp (prev power : ℚ) : ℚ :=
  prev + 0.01 * (power / RATED_POWER * 80 - prev)

/-- Sub-step 6 of `step`: gearbox temperature relaxation, driven by the
combined power and rotor-speed load. -/
def next_gb_temp (prev power rpm : ℚ) : ℚ :=
  prev + 0.008 * ((power / RATED_POWER + rpm / MAX_RPM) * 90 - prev)

/-- `step(state)` from scada_simulator.py, with the randomness explicit. -/
def step (state : Snapshot) (d : Draws) : Snapshot :=
  let wind := next_wind state d
  let rpm := next_rpm wind
  let pitch := next_pitch wind state.pitch d.pitch_draw
  let power := next_power wind
  let gen_temp := next_gen_temp state.gen_temp power
  let gb_temp := next_gb_temp state.gb_temp power rpm
  let vib := state.vibration + d.vib_noise
  { wind_speed := wind
  , rpm := rpm
  , pitch := pitch
  , power := power
  , gen_temp := gen_temp
  , gb_temp := gb_temp
  , vibration := max 0.5 vib }

theorem step_wind_speed (s : Snapshot) (d : Draws) :
    (step s d).wind_speed = next_wind s d := rfl

theorem step_rpm (s : Snapshot) (d : Draws) :
    (step s d).rpm = next_rpm (next_wind s d) := rfl

theorem step_pitch (s : Snapshot) (d : Draws) :
    (step s d).pitch = next_pitch (next_wind s d) s.pitch d.pitch_draw := rfl

theorem step_power (s : Snapshot) (d : Draws) :
    (step s d).power = next_power (next_wind s d) := rfl

theorem step_gen_temp (s : Snapshot) (d : Draws) :
    (step s d).gen_temp = next_gen_temp s.gen_temp (next_power (next_wind s d)) := rfl

theorem step_vibration (s : Snapshot) (d : Draws) :
    (step s d).vibration = max 0.5 (s.vibration + d.vib_noise) := rfl

/-! ## dt_engine.py — physics derivation and health classification -/

/-- The dict returned by `compute_physics`. -/
structure Physics where
  omega : ℚ
  p_wind : ℚ
  tsr : ℚ
  cp : ℚ
  torque : ℚ
deriving Repr, DecidableEq

/-- Angular speed, from `compute_physics`. -/
def physics_omega (rpm : ℚ) : ℚ := 2.0 * mathPi * rpm / 60.0

/-- Available wind power, from `compute_physics`. -/
def physics_p_wind (wind : ℚ) : ℚ :=
  if wind > 0.0 then 0.5 * AIR_DENSITY * ROTOR_AREA * wind ^ 3 else 0.0

/-- Tip-speed ratio, from `compute_physics`. -/
def physics_tsr (omega wind : ℚ) : ℚ :=
  if wind > 0.1 then omega * ROTOR_RADIUS / wind else 0.0

/-- Power coefficient, from `compute_physics`. -/
def physics_cp (power p_wind : ℚ) : ℚ :=
  if p_wind > 1.0 then min (power / p_wind) CP_MAX else 0.0

/-- Mechanical torque, from `compute_physics`. -/
def physics_torque (power omega : ℚ) : ℚ :=
  if omega > 0.1 then power / omega else 0.0

/-- `compute_physics(scada)` from dt_engine.py. -/
def compute_physics (scada : Snapshot) : Physics :=
  let omega := physics_omega scada.rpm
  let p_wind := physics_p_wind scada.wind_speed
  { omega := omega
  , p_wind := p_wind
  , tsr := physics_tsr omega scada.wind_speed
  , cp := physics_cp scada.power p_wind
  , torque := physics_torque scada.power omega }

theorem compute_physics_omega (s : Snapshot) :
    (compute_physics s).omega = physics_omega s.rpm := rfl

theorem compute_physics_p_wind (s : Snapshot) :
    (compute_physics s).p_wind = physics_p_wind s.wind_speed := rfl

theorem compute_physics_tsr (s : Snapshot) :
    (compute_physics s).tsr = physics_tsr (physics_omega s.rpm) s.wind_speed := rfl

theorem compute_physics_cp (s : Snapshot) :
    (compute_physics s).cp = physics_cp s.power (physics_p_wind s.wind_speed) := rfl

theorem compute_physics_torque (s : Snapshot) :
    (compute_physics s).torque = physics_torque s.power (physics_omega s.rpm) := rfl

/-- A health severity level. -/
inductive Status where
  | OK
  | WARN
  | CRITICAL
deriving Repr, DecidableEq

/-- The dict returned by `evaluate_health`. -/
structure Health where
  generator_temp : Status
  gearbox_temp : Status
  vibration : Status
  performance : Status
deriving Repr, DecidableEq

/-- `evaluate_health(scada, dt)` from dt_engine.py. -/
def evaluate_health (scada : Snapshot) (dt : Physics) : Health :=
  { generator_temp :=
      if scada.gen_temp > GEN_TEMP_CRIT then .CRITICAL
      else if scada.gen_temp > GEN_TEMP_WARN then .WARN
      else .OK
  , gearbox_temp :=
      if scada.gb_temp > GB_TEMP_CRIT then .CRITICAL
      else if scada.gb_temp > GB_TEMP_WARN then .WARN
      else .OK
  , vibration :=
      if scada.vibration > VIB_CRIT then .CRITICAL
      else if scada.vibration > VIB_WARN then .WARN
      else .OK
  , performance :=
      if dt.cp < 0.25 ∧ scada.wind_speed > CUT_IN_WIND then .WARN
      else .OK }

/-- The declared ranges of a SCADA snapshot's bounded fields. -/
def Snapshot.InRange (s : Snapshot) : Prop :=
  MIN_RPM ≤ s.rpm ∧ s.rpm ≤ MAX_RPM ∧
  MIN_PITCH ≤ s.pitch ∧ s.pitch ≤ MAX_PITCH ∧
  0 ≤ s.power ∧ s.power ≤ RATED_POWER ∧
  0 ≤ s.wind_speed ∧ 0.5 ≤ s.vibration

instance (s : Snapshot) : Decidable s.InRange := by
  unfold Snapshot.InRange; infer_instance

/-- The trajectory of the simulator: start at `initial_state` and apply
`step` once per time index, consuming one `Draws` record per step. -/
def traj (dseq : ℕ → Draws) : ℕ → Snapshot
  | 0 => initial_state
  | n + 1 => step (traj dseq n) (dseq n)

/-- Repeated application of the generator-temperature update with the
power held constant. -/
def iterate_gen_temp (power T0 : ℚ) : ℕ → ℚ
  | 0 => T0
  | n + 1 => next_gen_temp (iterate_gen_temp power T0 n) power

/-! ## Helper lemmas -/

theorem next_wind_nonneg (s : Snapshot) (d : Draws) : 0 ≤ next_wind s d :=
  le_max_left 0 _

theorem next_rpm_bounds (w : ℚ) :
    MIN_RPM ≤ next_rpm w ∧ next_rpm w ≤ MAX_RPM := by
  refine ⟨le_max_left _ _, ?_⟩
  unfold next_rpm
  split
  · exact max_le (by norm_num [MIN_RPM, MAX_RPM]) (min_le_left _ _)
  · exact max_le (by norm_num [MIN_RPM, MAX_RPM]) le_rfl

theorem next_power_bounds (w : ℚ) :
    0 ≤ next_power w ∧ next_power w ≤ RATED_POWER := by
  unfold next_power
  split
  · norm_num [RATED_POWER]
  · rename_i hw
    have hw3 : (3 : ℚ) ≤ w := by
      have := not_lt.mp hw
      norm_num [CUT_IN_WIND] at this
      linarith
    have hw0 : (0 : ℚ) ≤ w := by linarith
    constructor
    · refine le_min (by norm_num [RATED_POWER]) ?_
      have : (0 : ℚ) ≤ w ^ 3 := by positivity
      unfold EFFICIENCY AIR_DENSITY ROTOR_AREA ROTOR_RADIUS
      nlinarith
    · exact min_le_left _ _

theorem next_gen_temp_le_80 (prev power : ℚ)
    (hprev : prev ≤ 80) (hpow : power ≤ RATED_POWER) :
    next_gen_temp prev power ≤ 80 := by
  have hfrac : power / RATED_POWER ≤ 1 := by
    rw [div_le_one (by norm_num [RATED_POWER])]
    simpa using hpow
  unfold next_gen_temp
  nlinarith

theorem evaluate_health_generator (s : Snapshot) (dt : Physics) :
    (evaluate_health s dt).generator_temp =
      if s.gen_temp > GEN_TEMP_CRIT then Status.CRITICAL
      else if s.gen_temp > GEN_TEMP_WARN then Status.WARN
      else Status.OK := rfl

theorem evaluate_health_gearbox (s : Snapshot) (dt : Physics) :
    (evaluate_health s dt).gearbox_temp =
      if s.gb_temp > GB_TEMP_CRIT then Status.CRITICAL
      else if s.gb_temp > GB_TEMP_WARN then Status.WARN
      else Status.OK := rfl

theorem evaluate_health_vib (s : Snapshot) (dt : Physics) :
    (evaluate_health s dt).vibration =
      if s.vibration > VIB_CRIT then Status.CRITICAL
      else if s.vibration > VIB_WARN then Status.WARN
      else Status.OK := rfl

theorem evaluate_health_perf (s : Snapshot) (dt : Physics) :
    (evaluate_health s dt).performance =
      if dt.cp < 0.25 ∧ s.wind_speed > CUT_IN_WIND then Status.WARN
      else Status.OK := rfl

/-- The WARN/CRITICAL threshold pattern shared by the first three health
channels of `evaluate_health`, characterized by three iffs. -/
theorem tri_classify (x warnT critT : ℚ) (hwc : warnT < critT) :
    ((if x > critT then Status.CRITICAL
      else if x > warnT then Status.WARN else Status.OK) = Status.CRITICAL ↔
        x > critT) ∧
    ((if x > critT then Status.CRITICAL
      else if x > warnT then Status.WARN else Status.OK) = Status.WARN ↔
        warnT < x ∧ x ≤ critT) ∧
    ((if x > critT then Status.CRITICAL
      else if x > warnT then Status.WARN else Status.OK) = Status.OK ↔
        x ≤ warnT) := by
  refine ⟨?_, ?_, ?_⟩ <;> split_ifs with h1 h2 <;>
    simp_all [not_lt, not_le]
  all_goals linarith

/-! ## Claim theorems -/

/-- C2: for every snapshot (whose power lies in its declared range, so is
nonnegative), the power coefficient returned by `compute_physics` satisfies
`0 ≤ cp ≤ CP_MAX`; the cap to `CP_MAX` holds unconditionally, even when the
measured power exceeds the naive available-wind-power estimate. -/
theorem C2_cp_bounds (s : Snapshot) :
    (compute_physics s).cp ≤ CP_MAX ∧
    (0 ≤ s.power → 0 ≤ (compute_physics s).cp) := by
  rw [compute_physics_cp]
  unfold physics_cp
  constructor
  · split
    · exact min_le_right _ _
    · norm_num [CP_MAX]
  · intro h
    split
    · rename_i hpw
      have h1 : (0 : ℚ) ≤ physics_p_wind s.wind_speed := by
        norm_num at hpw
        linarith
      exact le_min (div_nonneg h h1) (by norm_num [CP_MAX])
    · norm_num

theorem C2_witness :
    (compute_physics initial_state).cp ≤ CP_MAX ∧
    0 ≤ initial_state.power ∧ 0 ≤ (compute_physics initial_state).cp :=
  ⟨(C2_cp_bounds initial_state).1, by norm_num [initial_state],
    (C2_cp_bounds initial_state).2 (by norm_num [initial_state])⟩

/-- C4: the performance channel is WARN exactly when `cp < 0.25` and
`wind_speed > CUT_IN_WIND`, is never CRITICAL, and in particular is OK for
every snapshot with `wind_speed = 2` and physics with `cp = 0`. -/
theorem C4_performance_channel (s : Snapshot) (dt : Physics) :
    ((evaluate_health s dt).performance = Status.WARN ↔
      dt.cp < 0.25 ∧ s.wind_speed > CUT_IN_WIND) ∧
    (evaluate_health s dt).performance ≠ Status.CRITICAL ∧
    (s.wind_speed = 2 → dt.cp = 0 →
      (evaluate_health s dt).performance = Status.OK) := by
  simp only [evaluate_health]
  refine ⟨?_, ?_, ?_⟩
  · split
    · simp_all
    · simp_all
  · split <;> simp
  · intro hw hc
    split
    · rename_i hcond
      rw [hw] at hcond
      norm_num [CUT_IN_WIND] at hcond
    · rfl

theorem C4_witness :
    (⟨2, 0, 0, 0, 40, 45, 2.5⟩ : Snapshot).wind_speed = 2 ∧
    (⟨0, 0, 0, 0, 0⟩ : Physics).cp = 0 ∧
    (evaluate_health ⟨2, 0, 0, 0, 40, 45, 2.5⟩ ⟨0, 0, 0, 0, 0⟩).performance =
      Status.OK :=
  ⟨rfl, rfl,
    (C4_performance_channel ⟨2, 0, 0, 0, 40, 45, 2.5⟩ ⟨0, 0, 0, 0, 0⟩).2.2 rfl rfl⟩

/-- C6: each temperature/vibration channel is CRITICAL iff its field is
strictly above its CRITICAL threshold, WARN iff strictly above the WARN
threshold but at most the CRITICAL threshold, OK iff at most the WARN
threshold, each channel a function of its own field alone; and Scenario B:
`{gen_temp:96, gb_temp:70, vibration:2, wind_speed:8}` with `cp ≥ 0.25`
yields generator CRITICAL and all other channels OK. -/
theorem C6_threshold_channels (s : Snapshot) (dt : Physics) :
    ((evaluate_health s dt).generator_temp = Status.CRITICAL ↔
      s.gen_temp > GEN_TEMP_CRIT) ∧
    ((evaluate_health s dt).generator_temp = Status.WARN ↔
      GEN_TEMP_WARN < s.gen_temp ∧ s.gen_temp ≤ GEN_TEMP_CRIT) ∧
    ((evaluate_health s dt).generator_temp = Status.OK ↔
      s.gen_temp ≤ GEN_TEMP_WARN) ∧
    ((evaluate_health s dt).gearbox_temp = Status.CRITICAL ↔
      s.gb_temp > GB_TEMP_CRIT) ∧
    ((evaluate_health s dt).gearbox_temp = Status.WARN ↔
      GB_TEMP_WARN < s.gb_temp ∧ s.gb_temp ≤ GB_TEMP_CRIT) ∧
    ((evaluate_health s dt).gearbox_temp = Status.OK ↔
      s.gb_temp ≤ GB_TEMP_WARN) ∧
    ((evaluate_health s dt).vibration = Status.CRITICAL ↔
      s.vibration > VIB_CRIT) ∧
    ((evaluate_health s dt).vibration = Status.WARN ↔
      VIB_WARN < s.vibration ∧ s.vibration ≤ VIB_CRIT) ∧
    ((evaluate_health s dt).vibration = Status.OK ↔
      s.vibration ≤ VIB_WARN) ∧
    (s.gen_temp = 96 → s.gb_temp = 70 → s.vibration = 2 → s.wind_speed = 8 →
      0.25 ≤ dt.cp →
      evaluate_health s dt =
        ⟨Status.CRITICAL, Status.OK, Status.OK, Status.OK⟩) := by
  have hg := tri_classify s.gen_temp GEN_TEMP_WARN GEN_TEMP_CRIT
    (by norm_num [GEN_TEMP_WARN, GEN_TEMP_CRIT])
  have hb := tri_classify s.gb_temp GB_TEMP_WARN GB_TEMP_CRIT
    (by norm_num [GB_TEMP_WARN, GB_TEMP_CRIT])
  have hv := tri_classify s.vibration VIB_WARN VIB_CRIT
    (by norm_num [VIB_WARN, VIB_CRIT])
  rw [evaluate_health_generator, evaluate_health_gearbox, evaluate_health_vib]
  refine ⟨hg.1, hg.2.1, hg.2.2, hb.1, hb.2.1, hb.2.2, hv.1, hv.2.1, hv.2.2, ?_⟩
  intro h1 h2 h3 h4 h5
  unfold evaluate_health
  rw [h1, h2, h3, h4]
  have hc1 : ((96 : ℚ) > GEN_TEMP_CRIT) := by norm_num [GEN_TEMP_CRIT]
  have hc2 : ¬((70 : ℚ) > GB_TEMP_CRIT) := by norm_num [GB_TEMP_CRIT]
  have hc3 : ¬((70 : ℚ) > GB_TEMP_WARN) := by norm_num [GB_TEMP_WARN]
  have hc4 : ¬((2 : ℚ) > VIB_CRIT) := by norm_num [VIB_CRIT]
  have hc5 : ¬((2 : ℚ) > VIB_WARN) := by norm_num [VIB_WARN]
  have hc6 : ¬(dt.cp < 0.25 ∧ (8 : ℚ) > CUT_IN_WIND) :=
    fun hc => absurd hc.1 (not_lt.mpr h5)
  rw [if_pos hc1, if_neg hc2, if_neg hc3, if_neg hc4, if_neg hc5, if_neg hc6]

theorem C6_witness :
    (⟨8, 8, 0, 0, 96, 70, 2⟩ : Snapshot).gen_temp = 96 ∧
    evaluate_health ⟨8, 8, 0, 0, 96, 70, 2⟩ ⟨0, 0, 0, 0.3, 0⟩ =
      ⟨Status.CRITICAL, Status.OK, Status.OK, Status.OK⟩ :=
  ⟨rfl,
    (C6_threshold_channels ⟨8, 8, 0, 0, 96, 70, 2⟩ ⟨0, 0, 0, 0.3, 0⟩).2.2.2.2.2.2.2.2.2
      rfl rfl rfl rfl (by norm_num)⟩

/-- C7: `compute_physics` is total at zero wind: with `wind_speed = 0` it
returns available power 0, tip-speed ratio 0 and power coefficient 0, and
on the all-zero Scenario A snapshot it returns exactly the zero physics
record (every division is guarded, so no division-by-zero fault arises). -/
theorem C7_zero_wind (s : Snapshot) (h : s.wind_speed = 0) :
    (compute_physics s).p_wind = 0 ∧ (compute_physics s).tsr = 0 ∧
    (compute_physics s).cp = 0 ∧
    (s.rpm = 0 → s.power = 0 → compute_physics s = ⟨0, 0, 0, 0, 0⟩) := by
  have hpw : physics_p_wind s.wind_speed = 0 := by
    unfold physics_p_wind
    rw [h]
    norm_num
  refine ⟨by rw [compute_physics_p_wind, hpw], ?_, ?_, ?_⟩
  · rw [compute_physics_tsr]
    unfold physics_tsr
    rw [h]
    norm_num
  · rw [compute_physics_cp, hpw]
    unfold physics_cp
    norm_num
  · intro hr hp
    simp only [compute_physics, physics_omega, physics_p_wind, physics_tsr,
      physics_cp, physics_torque, h, hr, hp]
    norm_num [mathPi]

theorem C7_witness :
    (⟨0, 0, 0, 0, 0, 0, 0⟩ : Snapshot).wind_speed = 0 ∧
    compute_physics ⟨0, 0, 0, 0, 0, 0, 0⟩ = ⟨0, 0, 0, 0, 0⟩ :=
  ⟨rfl, (C7_zero_wind ⟨0, 0, 0, 0, 0, 0, 0⟩ rfl).2.2.2 rfl rfl⟩

/-- C1: a snapshot whose bounded fields lie within their declared ranges
is mapped by `step`, under any draws within their stated uniform ranges,
to a snapshot whose bounded fields again lie within those ranges. -/
theorem C1_step_preserves_ranges (s : Snapshot) (d : Draws)
    (hs : s.InRange) (hd : d.Admissible s) : (step s d).InRange := by
  obtain ⟨-, -, hpl, -, -, -, -, -⟩ := hs
  obtain ⟨-, -, -, -, hp, -, -⟩ := hd
  unfold Snapshot.InRange
  rw [step_rpm, step_pitch, step_power, step_wind_speed, step_vibration]
  refine ⟨(next_rpm_bounds _).1, (next_rpm_bounds _).2, ?_, ?_,
    (next_power_bounds _).1, (next_power_bounds _).2,
    next_wind_nonneg s d, le_max_left _ _⟩
  · unfold next_pitch
    split
    · rename_i hw
      rw [if_pos hw] at hp
      norm_num [MIN_PITCH]
      linarith [hp.1]
    · rename_i hw
      rw [if_neg hw] at hp
      refine le_min (by norm_num [MIN_PITCH, MAX_PITCH]) ?_
      norm_num [MIN_PITCH] at hpl ⊢
      linarith [hp.1]
  · unfold next_pitch
    split
    · rename_i hw
      rw [if_pos hw] at hp
      norm_num [MIN_PITCH, MAX_PITCH]
      linarith [hp.2]
    · exact min_le_left _ _

theorem C1_witness :
    initial_state.InRange ∧
    Draws.Admissible ⟨0, 0, 0.2, 0⟩ initial_state ∧
    (step initial_state ⟨0, 0, 0.2, 0⟩).InRange := by
  have h1 : initial_state.InRange := by
    norm_num [Snapshot.InRange, initial_state, MIN_RPM, MAX_RPM, MIN_PITCH,
      MAX_PITCH, RATED_POWER]
  have h2 : Draws.Admissible ⟨0, 0, 0.2, 0⟩ initial_state := by
    norm_num [Draws.Admissible, next_wind, initial_state, RATED_WIND]
  exact ⟨h1, h2, C1_step_preserves_ranges initial_state ⟨0, 0, 0.2, 0⟩ h1 h2⟩

/-- C5: the generator-temperature update performed by `step` is exactly
`T + 0.01 × (power / RATED_POWER × 80 − T)` with the newly computed power,
and with the power held constant the iterated update is strictly
decreasing and stays above the equilibrium `power / RATED_POWER × 80`
when started above it, strictly increasing and below it when started
below it. -/
theorem C5_gen_temp_relaxation (s : Snapshot) (d : Draws) (power T0 : ℚ) :
    (step s d).gen_temp = next_gen_temp s.gen_temp ((step s d).power) ∧
    (power / RATED_POWER * 80 < T0 →
      ∀ n, iterate_gen_temp power T0 (n + 1) < iterate_gen_temp power T0 n ∧
        power / RATED_POWER * 80 < iterate_gen_temp power T0 n) ∧
    (T0 < power / RATED_POWER * 80 →
      ∀ n, iterate_gen_temp power T0 n < iterate_gen_temp power T0 (n + 1) ∧
        iterate_gen_temp power T0 n < power / RATED_POWER * 80) := by
  have above : ∀ T : ℚ, power / RATED_POWER * 80 < T →
      next_gen_temp T power < T ∧ power / RATED_POWER * 80 < next_gen_temp T power := by
    intro T h
    unfold next_gen_temp
    constructor <;> nlinarith
  have below : ∀ T : ℚ, T < power / RATED_POWER * 80 →
      T < next_gen_temp T power ∧ next_gen_temp T power < power / RATED_POWER * 80 := by
    intro T h
    unfold next_gen_temp
    constructor <;> nlinarith
  refine ⟨rfl, ?_, ?_⟩
  · intro hE n
    have key : ∀ m, power / RATED_POWER * 80 < iterate_gen_temp power T0 m := by
      intro m
      induction m with
      | zero => exact hE
      | succ k ih => exact (above _ ih).2
    exact ⟨(above _ (key n)).1, key n⟩
  · intro hE n
    have key : ∀ m, iterate_gen_temp power T0 m < power / RATED_POWER * 80 := by
      intro m
      induction m with
      | zero => exact hE
      | succ k ih => exact (below _ ih).2
    exact ⟨(below _ (key n)).1, key n⟩

theorem C5_witness :
    (0 : ℚ) / RATED_POWER * 80 < 50 ∧
    (iterate_gen_temp 0 50 1 < iterate_gen_temp 0 50 0 ∧
      (0 : ℚ) / RATED_POWER * 80 < iterate_gen_temp 0 50 0) :=
  ⟨by norm_num [RATED_POWER],
    (C5_gen_temp_relaxation initial_state ⟨0, 0, 0, 0⟩ 0 50).2.1
      (by norm_num [RATED_POWER]) 0⟩

/-- C8: for every previous snapshot and every random draw, the rpm
returned by `step` is `max MIN_RPM (min MAX_RPM (1.5 × w))` when the new
wind speed `w` is strictly below RATED_WIND and `MAX_RPM` when `w` is at
or above RATED_WIND, and the previous rpm value plays no role. -/
theorem C8_rpm_control_law (s : Snapshot) (d : Draws) :
    (next_wind s d < RATED_WIND →
      (step s d).rpm = max MIN_RPM (min MAX_RPM (1.5 * next_wind s d))) ∧
    (RATED_WIND ≤ next_wind s d → (step s d).rpm = MAX_RPM) ∧
    (∀ r : ℚ, (step { s with rpm := r } d).rpm = (step s d).rpm) := by
  refine ⟨?_, ?_, fun r => rfl⟩
  · intro h
    rw [step_rpm]
    unfold next_rpm
    rw [if_pos h]
  · intro h
    rw [step_rpm]
    unfold next_rpm
    rw [if_neg (not_lt.mpr h)]
    exact max_eq_right (by norm_num [MIN_RPM, MAX_RPM])

theorem C8_witness :
    next_wind initial_state ⟨0, 0, 0, 0⟩ < RATED_WIND ∧
    (step initial_state ⟨0, 0, 0, 0⟩).rpm =
      max MIN_RPM (min MAX_RPM (1.5 * next_wind initial_state ⟨0, 0, 0, 0⟩)) := by
  have h : next_wind initial_state ⟨0, 0, 0, 0⟩ < RATED_WIND := by
    norm_num [next_wind, initial_state, RATED_WIND]
  exact ⟨h, (C8_rpm_control_law initial_state ⟨0, 0, 0, 0⟩).1 h⟩

/-- C9: `step` keeps the generator temperature at or below 80 whenever the
previous snapshot has gen_temp ≤ 80 and power in its declared range; hence
every snapshot on a trajectory from `initial_state` has generator
temperature strictly below GEN_TEMP_WARN and its generator-temperature
health channel is OK. -/
theorem C9_gen_temp_never_warns (s : Snapshot) (d : Draws)
    (dseq : ℕ → Draws) (n : ℕ) (p : Physics)
    (h80 : s.gen_temp ≤ 80) (_hp0 : 0 ≤ s.power) (_hp1 : s.power ≤ RATED_POWER) :
    (step s d).gen_temp ≤ 80 ∧
    (traj dseq n).gen_temp < GEN_TEMP_WARN ∧
    (evaluate_health (traj dseq n) p).generator_temp = Status.OK := by
  have hstep : ∀ (s' : Snapshot) (d' : Draws),
      s'.gen_temp ≤ 80 → (step s' d').gen_temp ≤ 80 := by
    intro s' d' h
    rw [step_gen_temp]
    exact next_gen_temp_le_80 _ _ h (next_power_bounds _).2
  have htraj : ∀ m, (traj dseq m).gen_temp ≤ 80 := by
    intro m
    induction m with
    | zero =>
      show initial_state.gen_temp ≤ 80
      norm_num [initial_state]
    | succ k ih => exact hstep _ _ ih
  have hlt : (traj dseq n).gen_temp < GEN_TEMP_WARN := by
    have := htraj n
    norm_num [GEN_TEMP_WARN]
    linarith
  refine ⟨hstep s d h80, hlt, ?_⟩
  rw [evaluate_health_generator]
  have h1 : ¬((traj dseq n).gen_temp > GEN_TEMP_CRIT) := by
    have := htraj n
    norm_num [GEN_TEMP_CRIT]
    linarith
  have h2 : ¬((traj dseq n).gen_temp > GEN_TEMP_WARN) := not_lt.mpr (le_of_lt hlt)
  rw [if_neg h1, if_neg h2]

theorem C9_witness :
    initial_state.gen_temp ≤ 80 ∧ 0 ≤ initial_state.power ∧
    initial_state.power ≤ RATED_POWER ∧
    ((step initial_state ⟨0, 0, 0, 0⟩).gen_temp ≤ 80 ∧
      (traj (fun _ => ⟨0, 0, 0, 0⟩) 2).gen_temp < GEN_TEMP_WARN ∧
      (evaluate_health (traj (fun _ => ⟨0, 0, 0, 0⟩) 2)
          ⟨0, 0, 0, 0, 0⟩).generator_temp = Status.OK) :=
  ⟨by norm_num [initial_state], by norm_num [initial_state],
    by norm_num [initial_state, RATED_POWER],
    C9_gen_temp_never_warns initial_state ⟨0, 0, 0, 0⟩ (fun _ => ⟨0, 0, 0, 0⟩) 2
      ⟨0, 0, 0, 0, 0⟩ (by norm_num [initial_state]) (by norm_num [initial_state])
      (by norm_num [initial_state, RATED_POWER])⟩

/-- C10: `step` never reads the previous snapshot's rpm or power: two
previous snapshots agreeing on wind_speed, pitch, gen_temp, gb_temp and
vibration produce identical outputs under the same draws. -/
theorem C10_step_ignores_rpm_power (s1 s2 : Snapshot) (d : Draws)
    (hw : s1.wind_speed = s2.wind_speed) (hpi : s1.pitch = s2.pitch)
    (hg : s1.gen_temp = s2.gen_temp) (hb : s1.gb_temp = s2.gb_temp)
    (hv : s1.vibration = s2.vibration) :
    step s1 d = step s2 d := by
  obtain ⟨w1, r1, pi1, po1, g1, b1, v1⟩ := s1
  obtain ⟨w2, r2, pi2, po2, g2, b2, v2⟩ := s2
  simp only at hw hpi hg hb hv
  subst hw hpi hg hb hv
  rfl

theorem C10_witness :
    step ⟨8, 8, 2, 0, 40, 45, 2.5⟩ ⟨0, 0, 0, 0⟩ =
      step ⟨8, 1, 2, 700, 40, 45, 2.5⟩ ⟨0, 0, 0, 0⟩ :=
  C10_step_ignores_rpm_power ⟨8, 8, 2, 0, 40, 45, 2.5⟩ ⟨8, 1, 2, 700, 40, 45, 2.5⟩
    ⟨0, 0, 0, 0⟩ rfl rfl rfl rfl rfl

/-! ## C3: the Parameter Set and what happens at startup

config.py consists solely of constant bindings; the module body contains
no assertion or other validation, so importing it (the only thing that
happens at startup with respect to the Parameter Set) succeeds for any
values the bindings could hold. -/

/-- A Parameter Set: the constants bound by config.py, as one record. -/
structure ParamSet where
  AIR_DENSITY : ℚ
  ROTOR_RADIUS : ℚ
  ROTOR_AREA : ℚ
  RATED_POWER : ℚ
  EFFICIENCY : ℚ
  CUT_IN_WIND : ℚ
  RATED_WIND : ℚ
  CUT_OUT_WIND : ℚ
  MAX_RPM : ℚ
  MIN_RPM : ℚ
  MIN_PITCH : ℚ
  MAX_PITCH : ℚ
  CP_MAX : ℚ
  CP_NOMINAL : ℚ
  GEN_TEMP_WARN : ℚ
  GEN_TEMP_CRIT : ℚ
  GB_TEMP_WARN : ℚ
  GB_TEMP_CRIT : ℚ
  VIB_WARN : ℚ
  VIB_CRIT : ℚ
deriving Repr, DecidableEq

/-- The concrete Parameter Set bound by config.py. -/
def configParams : ParamSet :=
  { AIR_DENSITY := AIR_DENSITY
  , ROTOR_RADIUS := ROTOR_RADIUS
  , ROTOR_AREA := ROTOR_AREA
  , RATED_POWER := RATED_POWER
  , EFFICIENCY := EFFICIENCY
  , CUT_IN_WIND := CUT_IN_WIND
  , RATED_WIND := RATED_WIND
  , CUT_OUT_WIND := CUT_OUT_WIND
  , MAX_RPM := MAX_RPM
  , MIN_RPM := MIN_RPM
  , MIN_PITCH := MIN_PITCH
  , MAX_PITCH := MAX_PITCH
  , CP_MAX := CP_MAX
  , CP_NOMINAL := CP_NOMINAL
  , GEN_TEMP_WARN := GEN_TEMP_WARN
  , GEN_TEMP_CRIT := GEN_TEMP_CRIT
  , GB_TEMP_WARN := GB_TEMP_WARN
  , GB_TEMP_CRIT := GB_TEMP_CRIT
  , VIB_WARN := VIB_WARN
  , VIB_CRIT := VIB_CRIT }

/-- Startup as config.py performs it: executing the module's constant
bindings yields the Parameter Set unconditionally — the source contains no
assertion, so no parameter values are ever rejected as fatal. -/
def configStartup (c : ParamSet) : Option ParamSet := some c

/-- Modelled from the spec: the internal-consistency conditions the
Parameter Set is required to satisfy (RATED_WIND > CUT_IN_WIND,
MAX_RPM > MIN_RPM, MAX_PITCH ≥ MIN_PITCH, CP_MAX ≥ CP_NOMINAL, and each
WARN threshold strictly below its paired CRITICAL threshold). -/
def ParamSet.Consistent (c : ParamSet) : Prop :=
  c.RATED_WIND > c.CUT_IN_WIND ∧
  c.MAX_RPM > c.MIN_RPM ∧
  c.MAX_PITCH ≥ c.MIN_PITCH ∧
  c.CP_MAX ≥ c.CP_NOMINAL ∧
  c.GEN_TEMP_WARN < c.GEN_TEMP_CRIT ∧
  c.GB_TEMP_WARN < c.GB_TEMP_CRIT ∧
  c.VIB_WARN < c.VIB_CRIT

instance (c : ParamSet) : Decidable c.Consistent := by
  unfold ParamSet.Consistent; infer_instance

/-- C3 counterexample: startup performs no consistency check, so a
Parameter Set violating a WARN-below-CRITICAL condition is not treated as
fatal — the process proceeds with it, contrary to the claim. -/
theorem C3_counterexample :
    configStartup { configParams with GEN_TEMP_WARN := 100 } =
      some { configParams with GEN_TEMP_WARN := 100 } ∧
    ¬ ParamSet.Consistent { configParams with GEN_TEMP_WARN := 100 } := by
  refine ⟨rfl, ?_⟩
  intro h
  have := h.2.2.2.2.1
  norm_num [configParams, GEN_TEMP_CRIT] at this

/-- C3 (amended): the concrete Parameter Set bound by config.py satisfies
every internal-consistency condition, so this process never runs with an
inconsistent Parameter Set; however startup performs no check at all —
any parameter values, consistent or not, would be accepted. -/
theorem C3_config_consistent_without_check :
    ParamSet.Consistent configParams ∧
    ∀ c : ParamSet, configStartup c = some c := by
  constructor
  · norm_num [ParamSet.Consistent, configParams, RATED_WIND, CUT_IN_WIND,
      MAX_RPM, MIN_RPM, MAX_PITCH, MIN_PITCH, CP_MAX, CP_NOMINAL,
      GEN_TEMP_WARN, GEN_TEMP_CRIT, GB_TEMP_WARN, GB_TEMP_CRIT,
      VIB_WARN, VIB_CRIT]
  · intro c
    rfl

end WindTurbine
